import Mathlib

/-!
Formal model of the opencode remote terminal session bridge (the `Terminal`
Solid component wrapping a ghostty-web terminal over a WebSocket PTY
connection) and of the shell-history utility
(`packages/opencode/src/cli/cmd/tui/component/prompt/shell-history.ts`).

Stateful, event-driven code is embedded as pure Lean functions producing
explicit event traces; JavaScript truthiness tests on optional fields are
modelled by `truthyStr` / `truthyNat`; code that can throw is embedded in
`Except`.
-/

/-- The `LocalPTY` session record as used by the `Terminal` component:
`id` identifies the remote PTY; `buffer` is the serialized snapshot,
`rows`/`cols` the remembered dimensions and `scrollY` the remembered
viewport offset, all populated on detach and optional otherwise. -/
structure LocalPTY where
  id : String
  buffer : Option String := none
  rows : Option Nat := none
  cols : Option Nat := none
  scrollY : Option Nat := none
deriving Repr, DecidableEq

/-- JavaScript truthiness of an optional string field: defined and non-empty. -/
def truthyStr : Option String → Bool
  | none => false
  | some s => !(s == "")

/-- JavaScript truthiness of an optional numeric field: defined and non-zero. -/
def truthyNat : Option Nat → Bool
  | none => false
  | some n => !(n == 0)

/-! ## Shell history (`shell-history.ts`) -/

/-- Maximum number of retained history entries (`MAX_HISTORY`). -/
def MAX_HISTORY : Nat := 1000

/-- JavaScript `String.prototype.trim`: strip leading and trailing
whitespace (embedded structurally over the character list so that it
evaluates in the kernel). -/
def jsTrim (s : String) : String :=
  String.mk (((s.data.dropWhile Char.isWhitespace).reverse.dropWhile
    Char.isWhitespace).reverse)

/-- JavaScript `content.split("\n")`: cut the character list at every
newline, keeping empty segments. -/
def splitNewlines : List Char → List Char → List (List Char)
  | [], acc => [acc.reverse]
  | c :: rest, acc =>
      if c = '\n' then acc.reverse :: splitNewlines rest []
      else splitNewlines rest (c :: acc)

/-- History-file parsing in `loadHistory` (line 16):
`content.split("\n").filter(Boolean)` — split on newlines and drop the
falsy (empty) lines. -/
def loadHistoryFromContent (content : String) : List String :=
  ((splitNewlines content.data []).map String.mk).filter (fun s => !(s == ""))

/-- `addToHistory` (lines 25-47) acting on the current history list:
trim the command; if empty, leave the history unchanged; otherwise remove
the first occurrence of the trimmed command (`indexOf`/`splice`), prepend
it (`unshift`), and truncate to `MAX_HISTORY` entries. -/
def addToHistory (history : List String) (command : String) : List String :=
  let trimmed := jsTrim command
  if trimmed = "" then history
  else (trimmed :: history.erase trimmed).take MAX_HISTORY

/-! ## Key-intercept hook (`part_001` lines 38-45) -/

/-- The raw key event handed to `attachCustomKeyEventHandler`. -/
structure KeyEvent where
  ctrlKey : Bool
  key : String
deriving Repr, DecidableEq

/-- The custom key-intercept hook: returns `true` (suppress default
handling) exactly when `event.ctrlKey && event.key.toLowerCase() === "`"`,
and `false` otherwise. -/
def customKeyHandler (e : KeyEvent) : Bool :=
  e.ctrlKey && (e.key.toLower == "`")

/-! ## Terminal Surface operations during mount (`part_001` lines 52-68) -/

/-- Terminal Surface operations the component invokes. -/
inductive SurfaceOp where
  | resize (cols rows : Nat)
  | reset
  | write (data : String)
  | scrollToLine (n : Nat)
deriving Repr, DecidableEq

/-- Position of an operation in the specified restore order
`resize → reset → write → scrollToLine`. -/
def opKind : SurfaceOp → Nat
  | SurfaceOp.resize _ _ => 0
  | SurfaceOp.reset => 1
  | SurfaceOp.write _ => 2
  | SurfaceOp.scrollToLine _ => 3

/-- The snapshot-restore block (lines 54-63): inside
`if (local.pty.buffer)`, resize when `rows && cols` are truthy (note the
argument order `resize(cols, rows)`), then `reset()`, then
`write(buffer)`, then `scrollToLine(scrollY)` when `scrollY` is truthy. -/
def restoreOps (p : LocalPTY) : List SurfaceOp :=
  if truthyStr p.buffer then
    (if truthyNat p.rows && truthyNat p.cols then
        [SurfaceOp.resize (p.cols.getD 0) (p.rows.getD 0)]
      else [])
    ++ [SurfaceOp.reset, SurfaceOp.write (p.buffer.getD "")]
    ++ (if truthyNat p.scrollY then [SurfaceOp.scrollToLine (p.scrollY.getD 0)]
        else [])
  else []

/-- Surface-facing events of the whole mount body, in program order:
`term.open(container)` (line 52), the restore block (lines 54-63),
`container.focus()` (line 65) and `fitAddon.fit()` (line 67). -/
inductive MountEv where
  | openSurface
  | surface (op : SurfaceOp)
  | focus
  | fit
deriving Repr, DecidableEq

/-- Whether a mount event is a `surface.resize` call. -/
def MountEv.isResizeCall : MountEv → Bool
  | MountEv.surface (SurfaceOp.resize _ _) => true
  | _ => false

/-- The mount body's surface-facing trace. -/
def mountEvents (p : LocalPTY) : List MountEv :=
  [MountEv.openSurface] ++ (restoreOps p).map MountEv.surface
    ++ [MountEv.focus, MountEv.fit]

/-! ## Theorems for the key hook and shell history -/

/-- C8: the custom key-intercept hook returns `true` (suppressing the
surface's default handling) for exactly those key events with the Ctrl
modifier whose key, lowercased, is the backtick, and returns `false` for
every other key event. -/
theorem key_hook_true_iff (e : KeyEvent) :
    customKeyHandler e = true ↔ (e.ctrlKey = true ∧ e.key.toLower = "`") := by
  cases e with
  | mk c k =>
    simp [customKeyHandler, Bool.and_eq_true]

/-- C8 witness: the hook fires on Ctrl+backtick. -/
theorem key_hook_true_iff_witness :
    customKeyHandler { ctrlKey := true, key := "`" } = true ↔
      (({ ctrlKey := true, key := "`" } : KeyEvent).ctrlKey = true ∧
        ({ ctrlKey := true, key := "`" } : KeyEvent).key.toLower = "`") :=
  key_hook_true_iff { ctrlKey := true, key := "`" }

/-- C10 counterexample: a history seeded with duplicates (reachable, since
`loadHistory` keeps duplicate lines of the history file) violates the
claimed occurs-exactly-once invariant: only the first prior occurrence is
removed before the `unshift`, so "ls" occurs twice afterwards. -/
theorem addToHistory_duplicates_cex :
    loadHistoryFromContent "ls\nls" = ["ls", "ls"] ∧
    ¬((addToHistory (loadHistoryFromContent "ls\nls") "ls").count "ls" = 1) := by
  constructor
  · decide
  · decide

/-- C10 amended: after `addToHistory(command)` on a history whose entries
are non-empty and in which the trimmed command occurs at most once (as in
any history built by `addToHistory` alone): if the trimmed command is
empty the history is unchanged; otherwise it occupies index 0, occurs
exactly once, every entry is a non-empty string, and the length is at most
`MAX_HISTORY`. -/
theorem addToHistory_invariant (h : List String) (c : String)
    (hdup : h.count (jsTrim c) ≤ 1) (hne : ∀ s ∈ h, s ≠ "") :
    (jsTrim c = "" → addToHistory h c = h) ∧
    (jsTrim c ≠ "" →
      (addToHistory h c).head? = some (jsTrim c) ∧
      (addToHistory h c).count (jsTrim c) = 1 ∧
      (∀ s ∈ addToHistory h c, s ≠ "") ∧
      (addToHistory h c).length ≤ MAX_HISTORY) := by
  constructor
  · intro hempty
    simp [addToHistory, hempty]
  · intro hne2
    have hform : addToHistory h c =
        ((jsTrim c) :: (h.erase (jsTrim c))).take MAX_HISTORY := by
      simp [addToHistory, hne2]
    have htake : ((jsTrim c) :: (h.erase (jsTrim c))).take MAX_HISTORY =
        (jsTrim c) :: ((h.erase (jsTrim c)).take (MAX_HISTORY - 1)) := by
      rfl
    have herase0 : (h.erase (jsTrim c)).count (jsTrim c) = 0 := by
      have := List.count_erase_self (jsTrim c) h
      omega
    refine ⟨?_, ?_, ?_, ?_⟩
    · rw [hform, htake]; rfl
    · rw [hform, htake]
      have hsub : ((h.erase (jsTrim c)).take (MAX_HISTORY - 1)).Sublist
          (h.erase (jsTrim c)) := List.take_sublist _ _
      have hcnt := hsub.count_le (jsTrim c)
      simp [List.count_cons]
      omega
    · intro s hs
      rw [hform] at hs
      have hs2 := List.take_subset _ _ hs
      rcases List.mem_cons.mp hs2 with h1 | h2
      · exact h1 ▸ hne2
      · exact hne s (List.mem_of_mem_erase h2)
    · rw [hform]
      exact List.length_take_le MAX_HISTORY _

/-- C10 amended witness: adding "pwd" to the singleton history ["ls"]. -/
theorem addToHistory_invariant_witness :
    (["ls"].count (jsTrim "pwd") ≤ 1 ∧ ∀ s ∈ ["ls"], s ≠ "") ∧
    ((jsTrim "pwd" = "" → addToHistory ["ls"] "pwd" = ["ls"]) ∧
      (jsTrim "pwd" ≠ "" →
        (addToHistory ["ls"] "pwd").head? = some (jsTrim "pwd") ∧
        (addToHistory ["ls"] "pwd").count (jsTrim "pwd") = 1 ∧
        (∀ s ∈ addToHistory ["ls"] "pwd", s ≠ "") ∧
        (addToHistory ["ls"] "pwd").length ≤ MAX_HISTORY)) :=
  ⟨⟨by decide, by decide⟩, addToHistory_invariant ["ls"] "pwd" (by decide) (by decide)⟩

/-! ## Theorems for the restore block (attach) -/

/-- Any `resize` operation emitted by the restore block carries exactly the
session's stored `cols`/`rows` (and those fields are therefore present). -/
theorem resize_mem_restoreOps {p : LocalPTY} {c r : Nat}
    (h : SurfaceOp.resize c r ∈ restoreOps p) :
    p.cols = some c ∧ p.rows = some r := by
  unfold restoreOps at h
  by_cases hb : truthyStr p.buffer = true
  · simp only [hb, if_true] at h
    cases hrc : (truthyNat p.rows && truthyNat p.cols) with
    | false =>
        rw [hrc] at h
        cases hs : truthyNat p.scrollY <;> simp [hs] at h
    | true =>
        rw [hrc] at h
        have hand := Bool.and_eq_true_iff.mp hrc
        have hr : truthyNat p.rows = true := hand.1
        have hc : truthyNat p.cols = true := hand.2
        have hcr : c = p.cols.getD 0 ∧ r = p.rows.getD 0 := by
          cases hs : truthyNat p.scrollY <;> simp [hs] at h <;>
            exact ⟨h.1, h.2⟩
        cases hcol : p.cols with
        | none => rw [hcol] at hc; simp [truthyNat] at hc
        | some n =>
            cases hrow : p.rows with
            | none => rw [hrow] at hr; simp [truthyNat] at hr
            | some m =>
                refine ⟨?_, ?_⟩
                · rw [hcr.1, hcol]; rfl
                · rw [hcr.2, hrow]; rfl
  · simp only [Bool.not_eq_true] at hb
    simp [hb] at h

/-- C2: for every attach of a session carrying a snapshot (truthy
`buffer`), the restore block's surface operations follow the fixed order
resize → reset → write(snapshot) → scrollToLine(offset): the `opKind`
ranks along the trace are strictly increasing (so no write precedes the
resize and no scroll precedes the write, and each operation occurs at most
once), `reset` and `write(buffer)` always occur, and when the dimensions
and scroll offset are also truthy the trace is exactly
`[resize, reset, write, scrollToLine]`. -/
theorem restore_fixed_order (p : LocalPTY) (hb : truthyStr p.buffer = true) :
    List.Chain' (· < ·) ((restoreOps p).map opKind) ∧
    SurfaceOp.reset ∈ restoreOps p ∧
    SurfaceOp.write (p.buffer.getD "") ∈ restoreOps p ∧
    ((truthyNat p.rows && truthyNat p.cols) = true →
      truthyNat p.scrollY = true →
      restoreOps p = [SurfaceOp.resize (p.cols.getD 0) (p.rows.getD 0),
        SurfaceOp.reset, SurfaceOp.write (p.buffer.getD ""),
        SurfaceOp.scrollToLine (p.scrollY.getD 0)]) := by
  cases hrc : (truthyNat p.rows && truthyNat p.cols) <;>
    cases hs : truthyNat p.scrollY <;>
      simp [restoreOps, hb, hrc, hs, opKind]

/-- The session used to exercise the full restore path. -/
def ptyFull : LocalPTY :=
  { id := "pty-2", buffer := some "content", rows := some 24,
    cols := some 80, scrollY := some 5 }

/-- C2 witness: a session with snapshot, dimensions and scroll offset all
present restores in exactly the fixed order. -/
theorem restore_fixed_order_witness :
    truthyStr ptyFull.buffer = true ∧
    (List.Chain' (· < ·) ((restoreOps ptyFull).map opKind) ∧
      SurfaceOp.reset ∈ restoreOps ptyFull ∧
      SurfaceOp.write (ptyFull.buffer.getD "") ∈ restoreOps ptyFull ∧
      ((truthyNat ptyFull.rows && truthyNat ptyFull.cols) = true →
        truthyNat ptyFull.scrollY = true →
        restoreOps ptyFull =
          [SurfaceOp.resize (ptyFull.cols.getD 0) (ptyFull.rows.getD 0),
            SurfaceOp.reset, SurfaceOp.write (ptyFull.buffer.getD ""),
            SurfaceOp.scrollToLine (ptyFull.scrollY.getD 0)])) :=
  ⟨by decide, restore_fixed_order ptyFull (by decide)⟩

/-- A session with dimensions remembered but no snapshot. -/
def ptyDimsOnly : LocalPTY :=
  { id := "pty-1", buffer := none, rows := some 24, cols := some 80 }

/-- C4 counterexample: a session whose `dimensions` are present but which
carries no snapshot gets no `surface.resize` call at all during attach —
the resize sits inside the `if (local.pty.buffer)` block, contradicting
"regardless of whether the session also carries a snapshot". -/
theorem attach_resize_skipped_cex :
    ptyDimsOnly.cols = some 80 ∧ ptyDimsOnly.rows = some 24 ∧
    (mountEvents ptyDimsOnly).any MountEv.isResizeCall = false := by
  decide

/-- C4 amended: `surface.resize` is called with the session's stored
dimensions during attach exactly when the session also carries a truthy
snapshot and both stored dimensions are non-zero; whenever a resize call
occurs it carries exactly the stored dimensions. -/
theorem mount_resize_iff (p : LocalPTY) :
    ((mountEvents p).any MountEv.isResizeCall = true ↔
      (truthyStr p.buffer && (truthyNat p.rows && truthyNat p.cols)) = true) ∧
    (∀ c r, MountEv.surface (SurfaceOp.resize c r) ∈ mountEvents p →
      p.cols = some c ∧ p.rows = some r) := by
  constructor
  · cases hb : truthyStr p.buffer <;>
      cases hrc : (truthyNat p.rows && truthyNat p.cols) <;>
        cases hs : truthyNat p.scrollY <;>
          simp [mountEvents, restoreOps, MountEv.isResizeCall, hb, hrc, hs]
  · intro c r hmem
    have hop : SurfaceOp.resize c r ∈ restoreOps p := by
      simp [mountEvents] at hmem
      exact hmem
    exact resize_mem_restoreOps hop

/-! ## Connection-side handlers (`part_001` lines 70-117) -/

/-- WebSocket ready states. -/
inductive WsReadyState where
  | connecting
  | opened
  | closing
  | closed
deriving Repr, DecidableEq

/-- Surface and cursor state of the live terminal read by the bridge. -/
structure TermState where
  rows : Nat
  cols : Nat
  viewportY : Nat
  content : String
deriving Repr, DecidableEq

/-- Actions the bridge performs towards the connection, the out-of-band
PTY API (`sdk.client.pty.update`) and the surface. -/
inductive BridgeAct where
  | sendRemote (data : String)
  | reportSize (cols rows : Nat)
  | writeSurface (data : String)
  | notifyError
deriving Repr, DecidableEq

/-- Whether an action is the out-of-band dimension report. -/
def BridgeAct.isReport : BridgeAct → Bool
  | BridgeAct.reportSize _ _ => true
  | _ => false

/-- The `term.onData` handler (lines 83-87): forward the bytes over the
WebSocket only when the socket exists and `readyState === OPEN`; otherwise
do nothing (the handler is total: it neither throws nor stores the data).
The argument is the socket's ready state at the moment the event fires
(`none` when `ws` is undefined). -/
def onDataHandler (st : Option WsReadyState) (data : String) : List BridgeAct :=
  if st = some WsReadyState.opened then [BridgeAct.sendRemote data] else []

/-- A whole run of `onData` events: each event carries the socket state at
the moment it fires; outputs are concatenated in order. The handler keeps
no state between events (no buffer), so each event's contribution depends
only on the state at its own firing. -/
def runOnData : List (Option WsReadyState × String) → List BridgeAct
  | [] => []
  | e :: rest => onDataHandler e.1 e.2 ++ runOnData rest

/-- The WebSocket `open` handler (lines 96-107): report the surface's
current `{cols, rows}` through the out-of-band `pty.update` channel; it
sends no data bytes. -/
def wsOpenHandler (t : TermState) : List BridgeAct :=
  [BridgeAct.reportSize t.cols t.rows]

/-- The WebSocket `message` handler (lines 108-110): write the payload to
the surface. The `viewActive` argument is the embedding of "is this still
the active connection for this view"; the source handler consults no such
information, which the definition records by ignoring the argument. -/
def wsMessageHandler (_viewActive : Bool) (data : String) : List BridgeAct :=
  [BridgeAct.writeSurface data]

/-- The WebSocket `error` handler (lines 111-114): invoke the
host-supplied error callback; no liveness information is consulted. -/
def wsErrorHandler (_viewActive : Bool) : List BridgeAct :=
  [BridgeAct.notifyError]

/-! ## Theorems for the connection-side handlers -/

/-- C3: an `onData` event's bytes are sent to the connection exactly when
the connection is currently open; and over any sequence of events the
output is precisely the in-order sends of the data that arrived while
open — data arriving while not open is never sent, then or after any later
reopen (the handler is stateless, so no replay is possible). -/
theorem ondata_sent_iff_open :
    (∀ st data, BridgeAct.sendRemote data ∈ onDataHandler st data ↔
      st = some WsReadyState.opened) ∧
    (∀ evs, runOnData evs =
      (evs.filter (fun e => decide (e.1 = some WsReadyState.opened))).map
        (fun e => BridgeAct.sendRemote e.2)) := by
  constructor
  · intro st data
    by_cases hst : st = some WsReadyState.opened <;> simp [onDataHandler, hst]
  · intro evs
    induction evs with
    | nil => rfl
    | cons e rest ih =>
        by_cases hst : e.1 = some WsReadyState.opened <;>
          simp [runOnData, onDataHandler, hst, ih]

/-- C5: on every connection open, the handler reports the surface's
current columns and rows through the out-of-band resize channel exactly
once, and sends no data bytes at all in that turn (so the report trivially
precedes any data sent from the open handler). -/
theorem open_reports_dims_once (t : TermState) :
    (wsOpenHandler t).countP BridgeAct.isReport = 1 ∧
    BridgeAct.reportSize t.cols t.rows ∈ wsOpenHandler t ∧
    (∀ data, BridgeAct.sendRemote data ∉ wsOpenHandler t) := by
  refine ⟨?_, ?_, ?_⟩
  · simp [wsOpenHandler, List.countP, List.countP.go, BridgeAct.isReport]
  · simp [wsOpenHandler]
  · intro data
    simp [wsOpenHandler]

/-- C6 counterexample: the WebSocket `message` handler processes its event
even when the view is no longer the active one (`viewActive = false`): the
payload is still written to the surface, so connection-event handlers are
not guarded by an active-connection check. -/
theorem stale_message_processed_cex :
    wsMessageHandler false "stale-output" =
      [BridgeAct.writeSurface "stale-output"] ∧
    wsMessageHandler false "stale-output" ≠ [] := by
  constructor
  · rfl
  · decide

/-! ## Teardown (`part_001` lines 120-133) -/

/-- Observable events of the `onCleanup` body: handing the updated session
record to the host callback, closing the WebSocket, disposing the
surface. -/
inductive CleanupEv where
  | handoff (p : LocalPTY)
  | close
  | dispose
deriving Repr, DecidableEq

/-- What `serializeAddon.serialize()` captures: the surface's serialized
visible-plus-scrollback contents at the moment of the call. -/
def serializeTerm (t : TermState) : String :=
  t.content

/-- The component's mutable slots as they stand when `onCleanup` runs:
the session prop, and the `ws` / `term` / `serializeAddon` /
`props.onCleanup` slots, each possibly still unset (`onMount` may not have
run). -/
structure ViewState where
  pty : LocalPTY
  ws : Option WsReadyState
  term : Option TermState
  serializeLoaded : Bool
  hasCleanupCb : Bool
deriving Repr, DecidableEq

/-- The session record the cleanup hands to the host: the spread
`...local.pty` updated with the serialized buffer, the surface's `rows`
and `cols`, and `getViewportY()`. -/
def capturedPTY (p : LocalPTY) (t : TermState) : LocalPTY :=
  { p with
      buffer := some (serializeTerm t)
      rows := some t.rows
      cols := some t.cols
      scrollY := some t.viewportY }

/-- The `onCleanup` body: when both the serialize addon and the host
callback exist, synchronously serialize the buffer, read `rows`, `cols`
and the viewport offset from the surface, and hand the updated session to
the callback; then `ws?.close()` and `term?.dispose()`. Reading the
surface fields with `term` undefined is a thrown `TypeError`, modelled as
`Except.error` (which, like a JavaScript exception, also skips the
remaining steps). -/
def cleanupRun (v : ViewState) : Except String (List CleanupEv) :=
  match (if v.serializeLoaded && v.hasCleanupCb then
          match v.term with
          | none => Except.error "TypeError: reading a property of undefined"
          | some t => Except.ok [CleanupEv.handoff (capturedPTY v.pty t)]
        else Except.ok []) with
  | Except.error e => Except.error e
  | Except.ok capture =>
      Except.ok (capture ++ (if v.ws.isSome then [CleanupEv.close] else [])
        ++ (if v.term.isSome then [CleanupEv.dispose] else []))

/-! ## Theorems for teardown -/

/-- C1: on teardown of an attached view (surface, socket, serialize addon
and host callback all present), the snapshot capture completes within the
same synchronous run and the handoff of the updated session precedes both
the connection close and the surface disposal; the handed session carries
the snapshot, dimensions and scroll offset read from the surface's state
at capture time. -/
theorem cleanup_capture_before_teardown (v : ViewState) (t : TermState)
    (hterm : v.term = some t) (hser : v.serializeLoaded = true)
    (hcb : v.hasCleanupCb = true) (hws : v.ws.isSome = true) :
    ∃ updated : LocalPTY,
      cleanupRun v = Except.ok
        [CleanupEv.handoff updated, CleanupEv.close, CleanupEv.dispose] ∧
      updated.id = v.pty.id ∧
      updated.buffer = some (serializeTerm t) ∧
      updated.rows = some t.rows ∧
      updated.cols = some t.cols ∧
      updated.scrollY = some t.viewportY := by
  refine ⟨capturedPTY v.pty t, ?_, rfl, rfl, rfl, rfl, rfl⟩
  simp [cleanupRun, hterm, hser, hcb, hws]

/-- The fully attached view used as the teardown witness. -/
def viewAttached : ViewState :=
  { pty := { id := "pty-3" }, ws := some WsReadyState.opened,
    term := some { rows := 24, cols := 80, viewportY := 7, content := "hi" },
    serializeLoaded := true, hasCleanupCb := true }

/-- C1 witness: tearing down the concrete attached view hands off the
captured session before closing and disposing. -/
theorem cleanup_capture_before_teardown_witness :
    ∃ updated : LocalPTY,
      cleanupRun viewAttached = Except.ok
        [CleanupEv.handoff updated, CleanupEv.close, CleanupEv.dispose] ∧
      updated.id = viewAttached.pty.id ∧
      updated.buffer = some (serializeTerm
        { rows := 24, cols := 80, viewportY := 7, content := "hi" }) ∧
      updated.rows = some 24 ∧
      updated.cols = some 80 ∧
      updated.scrollY = some 7 :=
  cleanup_capture_before_teardown viewAttached
    { rows := 24, cols := 80, viewportY := 7, content := "hi" }
    rfl rfl rfl rfl

/-- C9: teardown never throws on any view state satisfying the assignment
order of `onMount` (the serialize addon is only set after the surface):
when the callback is absent or the serializer was never loaded, capture is
skipped entirely, while the connection is still closed exactly when one
exists and the surface disposed exactly when one exists. -/
theorem cleanup_never_throws (v : ViewState)
    (hinv : v.serializeLoaded = true → v.term.isSome = true) :
    ∃ evs, cleanupRun v = Except.ok evs ∧
      ((v.serializeLoaded = false ∨ v.hasCleanupCb = false) →
        ∀ p, CleanupEv.handoff p ∉ evs) ∧
      (CleanupEv.close ∈ evs ↔ v.ws.isSome = true) ∧
      (CleanupEv.dispose ∈ evs ↔ v.term.isSome = true) := by
  cases hser : v.serializeLoaded with
  | false =>
      cases hws : v.ws <;> cases hterm : v.term <;>
        simp [cleanupRun, hser, hws, hterm]
  | true =>
      have hterm : ∃ t, v.term = some t := by
        have := hinv hser
        cases h : v.term with
        | none => rw [h] at this; simp at this
        | some t => exact ⟨t, rfl⟩
      obtain ⟨t, ht⟩ := hterm
      cases hcb : v.hasCleanupCb with
      | false =>
          cases hws : v.ws <;> simp [cleanupRun, hser, hcb, hws, ht]
      | true =>
          cases hws : v.ws <;> simp [cleanupRun, hser, hcb, hws, ht]

/-- The bare view state: teardown running before mount ever started. -/
def viewUnmounted : ViewState :=
  { pty := { id := "pty-4" }, ws := none, term := none,
    serializeLoaded := false, hasCleanupCb := false }

/-- C9 witness: tearing down the never-mounted view succeeds, skips
capture, closes nothing and disposes nothing. -/
theorem cleanup_never_throws_witness :
    ∃ evs, cleanupRun viewUnmounted = Except.ok evs ∧
      ((viewUnmounted.serializeLoaded = false ∨
          viewUnmounted.hasCleanupCb = false) →
        ∀ p, CleanupEv.handoff p ∉ evs) ∧
      (CleanupEv.close ∈ evs ↔ viewUnmounted.ws.isSome = true) ∧
      (CleanupEv.dispose ∈ evs ↔ viewUnmounted.term.isSome = true) :=
  cleanup_never_throws viewUnmounted (fun h => by simp [viewUnmounted] at h)

/-- C6 amended: tearing down the view does close the connection whenever
one exists, but none of the connection-event handlers consult any
liveness information: the `message` and `error` handlers act identically
whether or not the view is still active, so suppression of stale events
relies entirely on the closed socket delivering none, not on handler-side
guards. -/
theorem teardown_closes_but_handlers_unguarded (v : ViewState)
    (hinv : v.serializeLoaded = true → v.term.isSome = true)
    (hws : v.ws.isSome = true) :
    (∃ evs, cleanupRun v = Except.ok evs ∧ CleanupEv.close ∈ evs) ∧
    (∀ active data, wsMessageHandler active data =
      [BridgeAct.writeSurface data]) ∧
    (∀ active, wsErrorHandler active = [BridgeAct.notifyError]) := by
  refine ⟨?_, fun active data => rfl, fun active => rfl⟩
  cases hser : v.serializeLoaded with
  | false =>
      cases hterm : v.term <;> simp [cleanupRun, hser, hterm, hws]
  | true =>
      have hterm : ∃ t, v.term = some t := by
        have := hinv hser
        cases h : v.term with
        | none => rw [h] at this; simp at this
        | some t => exact ⟨t, rfl⟩
      obtain ⟨t, ht⟩ := hterm
      cases hcb : v.hasCleanupCb <;> simp [cleanupRun, hser, hcb, hws, ht]

/-- C6 amended witness: the attached view's teardown emits a close, and
the message handler writes stale data even when inactive. -/
theorem teardown_closes_but_handlers_unguarded_witness :
    (∃ evs, cleanupRun viewAttached = Except.ok evs ∧
      CleanupEv.close ∈ evs) ∧
    (∀ active data, wsMessageHandler active data =
      [BridgeAct.writeSurface data]) ∧
    (∀ active, wsErrorHandler active = [BridgeAct.notifyError]) :=
  teardown_closes_but_handlers_unguarded viewAttached
    (fun _ => rfl) rfl

/-! ## Restore with a fallible surface write (malformed snapshots) -/

/-- The restore block (lines 54-63) with the Terminal Surface's `write`
treated as a fallible external operation, since a malformed snapshot may
make the surface's restore fail. The block wraps nothing in a try/catch:
a failure thrown by `write` aborts the block, skips `scrollToLine`, and
escapes the `onMount` body; nothing catches or reports it. -/
def restoreRunFallible (write : String → Except String Unit)
    (p : LocalPTY) : Except String (List SurfaceOp) :=
  if truthyStr p.buffer then
    match write (p.buffer.getD "") with
    | Except.error e => Except.error e
    | Except.ok _ => Except.ok (restoreOps p)
  else Except.ok []

/-- A surface write that rejects one particular serialized buffer. -/
def failingWrite : String → Except String Unit :=
  fun s => if s = "CORRUPT" then Except.error "restore failed" else Except.ok ()

/-- A session carrying a snapshot the surface rejects. -/
def ptyCorrupt : LocalPTY :=
  { id := "pty-5", buffer := some "CORRUPT" }

/-- C7 counterexample: with a stored snapshot that fails to restore, the
failure propagates out of the attach (mount) body instead of attach
completing with a working empty surface — the restore step has no
fail-safe. -/
theorem restore_failure_escapes_cex :
    restoreRunFallible failingWrite ptyCorrupt =
      Except.error "restore failed" := by
  rfl

/-- C7 amended: the restore step performs no error handling at all: when
the stored snapshot is truthy and restoring it fails, the failure escapes
attach unreported (it is not recovered into an empty surface); and when
the surface accepts the snapshot it is written verbatim with no
validation, the surface then showing the snapshot's content. -/
theorem restore_no_error_handling (write : String → Except String Unit)
    (p : LocalPTY) (hb : truthyStr p.buffer = true) :
    (∀ e, write (p.buffer.getD "") = Except.error e →
      restoreRunFallible write p = Except.error e) ∧
    (write (p.buffer.getD "") = Except.ok () →
      restoreRunFallible write p = Except.ok (restoreOps p) ∧
      SurfaceOp.write (p.buffer.getD "") ∈ restoreOps p) := by
  constructor
  · intro e hw
    simp [restoreRunFallible, hb, hw]
  · intro hw
    constructor
    · simp [restoreRunFallible, hb, hw]
    · cases hrc : (truthyNat p.rows && truthyNat p.cols) <;>
        cases hs : truthyNat p.scrollY <;>
          simp [restoreOps, hb, hrc, hs]

/-- C7 amended witness: the corrupt-snapshot session exercises the
error-propagation branch. -/
theorem restore_no_error_handling_witness :
    truthyStr ptyCorrupt.buffer = true ∧
    ((∀ e, failingWrite (ptyCorrupt.buffer.getD "") = Except.error e →
        restoreRunFallible failingWrite ptyCorrupt = Except.error e) ∧
      (failingWrite (ptyCorrupt.buffer.getD "") = Except.ok () →
        restoreRunFallible failingWrite ptyCorrupt =
          Except.ok (restoreOps ptyCorrupt) ∧
        SurfaceOp.write (ptyCorrupt.buffer.getD "") ∈ restoreOps ptyCorrupt)) :=
  ⟨by decide, restore_no_error_handling failingWrite ptyCorrupt (by decide)⟩
